import Mathlib

/-!
Shallow embedding of the blog application in `src/main.py` (Flask +
SQLAlchemy + Flask-Login).  The three database tables become record
types, the database plus the session cookie become an explicit
`AppState`, and each route handler becomes a function
`AppState → request → AppState × Response`.

Library behaviour that the handlers rely on is embedded explicitly:

* `validate_on_submit` lives in the missing `forms.py`; its outcome is
  carried on each request record as a boolean field `valid`.
* `generate_password_hash` / `check_password_hash` (werkzeug) are
  abstract parameters `hashPw` / `verify`.
* An unhandled Python exception inside a handler is rendered by Flask
  as an HTTP 500 response; we model it as `Response.httpError 500`.
* Decorator application in Python is bottom-up.  In `main.py` the
  admin routes are written

    at-admin_only
    at-app.route(...)
    def add_new_post(): ...

  so `app.route` runs FIRST and registers the UNWRAPPED view function
  with the URL map; `admin_only` then wraps the function but only the
  module-level name receives the wrapper, which Flask never calls.
  The routed handlers below are therefore the unwrapped functions,
  and `admin_only` is embedded separately as the combinator it is.
-/

/-- Row of the users table (class User in main.py): id primary key,
unique email, password hash, username. -/
structure User where
  id : Nat
  email : String
  password : String
  username : String
deriving DecidableEq

/-- Row of the blog_posts table (class BlogPost in main.py).
The author relationship is embedded as the foreign key author_id,
nullable because the column has no nullable constraint. -/
structure BlogPost where
  id : Nat
  author_id : Option Nat
  title : String
  subtitle : String
  date : String
  body : String
  img_url : String
deriving DecidableEq

/-- Row of the comments table (class Comment in main.py); the
commenter and parent_post relationships are embedded as the nullable
foreign keys commenter_id and parent_post_id. -/
structure Comment where
  id : Nat
  commenter_id : Option Nat
  parent_post_id : Option Nat
  text : String
deriving DecidableEq

/-- The relational store: the three tables of db.create_all(). -/
structure Store where
  users : List User
  posts : List BlogPost
  comments : List Comment
deriving DecidableEq

/-- Application state visible to one request: the store plus the
session identity (the user id kept in the signed session cookie by
Flask-Login; none means no identity is stored). -/
structure AppState where
  store : Store
  session : Option Nat
deriving DecidableEq

/-- Outcome of a handler: a rendered template, a redirect to a
location, or an HTTP error status (abort, or an unhandled exception
turned into a 500 by Flask).  Rendered pages and redirects carry the
flash notice queued during the request, if any. -/
inductive Response where
  | rendered (template : String) (flash : Option String)
  | redirect (location : String) (flash : Option String)
  | httpError (status : Nat)
deriving DecidableEq

/-- Autoincrement primary key for a new row: one more than the
largest id already in the table. -/
def nextId (ids : List Nat) : Nat := ids.foldr max 0 + 1

/-- User.query.filter_by(email=...).first() -/
def findUserByEmail (s : Store) (email : String) : Option User :=
  s.users.find? (fun u => u.email == email)

/-- BlogPost.query.get(post_id) -/
def findPostById (s : Store) (post_id : Nat) : Option BlogPost :=
  s.posts.find? (fun p => p.id == post_id)

/-- Flask-Login current_user, resolved through the user_loader
load_user: the session id is looked up in the users table; if the
lookup fails the effective identity is anonymous (none). -/
def currentUser (st : AppState) : Option User :=
  st.session.bind (fun i => st.store.users.find? (fun u => u.id == i))

/-- A register form submission.  Modelled from the spec: forms.py
(RegisterForm) is not under src, so the outcome of
form.validate_on_submit() is carried as the boolean field valid. -/
structure RegisterReq where
  valid : Bool
  email : String
  username : String
  password : String

/-- A login form submission.  Modelled from the spec: forms.py
(LoginForm) is not under src, so the outcome of
form.validate_on_submit() is carried as the boolean field valid. -/
structure LoginReq where
  valid : Bool
  email : String
  password : String

/-- A comment form submission.  Modelled from the spec: forms.py
(CommentForm) is not under src, so the outcome of
form.validate_on_submit() is carried as the boolean field valid. -/
structure CommentReq where
  valid : Bool
  comment_text : String

/-- A create-post form submission.  Modelled from the spec: forms.py
(CreatePostForm) is not under src, so the outcome of
form.validate_on_submit() is carried as the boolean field valid. -/
structure CreatePostReq where
  valid : Bool
  title : String
  subtitle : String
  body : String
  img_url : String

/-- An edit-post form submission.  Modelled from the spec: forms.py
(CreatePostForm) is not under src; the spec lists author among the
submitted mutable fields of EditPost, so the request carries the
author reference the handler assigns, besides the validity flag. -/
structure EditPostReq where
  valid : Bool
  title : String
  subtitle : String
  img_url : String
  author_id : Option Nat
  body : String

/-- Calendar date, the value of date.today(). -/
structure Date where
  year : Nat
  month : Nat
  day : Nat

/-- Full English month name, strftime directive percent-B. -/
def monthName : Nat → String
  | 1 => "January"
  | 2 => "February"
  | 3 => "March"
  | 4 => "April"
  | 5 => "May"
  | 6 => "June"
  | 7 => "July"
  | 8 => "August"
  | 9 => "September"
  | 10 => "October"
  | 11 => "November"
  | 12 => "December"
  | _ => ""

/-- Zero-padded two-digit day, strftime directive percent-d. -/
def pad2 (n : Nat) : String :=
  if n < 10 then "0" ++ toString n else toString n

/-- Embedding of date.today().strftime with the fixed format string
used at main.py line 222: full month name, zero-padded day, comma,
full year. -/
def strftimeLong (d : Date) : String :=
  monthName d.month ++ " " ++ pad2 d.day ++ ", " ++ toString d.year

/-- Handler of GET / (get_all_posts in main.py): reads all posts and
renders the listing; no state change. -/
def get_all_posts (st : AppState) : AppState × Response :=
  (st, Response.rendered "index.html" none)

/-- Handler of /register (register in main.py).  On a validated
submission: if a user with the submitted email already exists, flash
a notice and redirect to login without touching the store; otherwise
insert the new user with the derived password hash, log the new user
in, and redirect to the listing.  On GET render the form. -/
def register (hashPw : String → String) (st : AppState) (req : RegisterReq) :
    AppState × Response :=
  if req.valid then
    match findUserByEmail st.store req.email with
    | some _ =>
      (st, Response.redirect "login"
        (some "You\x27ve already signed up with that email, log in instead!"))
    | none =>
      let uid := nextId (st.store.users.map (fun u => u.id))
      let new_user : User :=
        { id := uid,
          email := req.email,
          password := hashPw req.password,
          username := req.username }
      ({ store := { st.store with users := st.store.users ++ [new_user] },
         session := some uid },
       Response.redirect "get_all_posts" none)
  else
    (st, Response.rendered "register.html" none)

/-- Handler of /login (login in main.py).  On a validated submission:
look the user up by email; unknown email flashes a notice and
redirects back to login; a stored hash that does not verify against
the entered password flashes a notice and redirects back to login;
otherwise log the user in and redirect to the listing. -/
def login (verify : String → String → Bool) (st : AppState) (req : LoginReq) :
    AppState × Response :=
  if req.valid then
    match findUserByEmail st.store req.email with
    | none =>
      (st, Response.redirect "login" (some "That email does not exist"))
    | some user =>
      if verify user.password req.password then
        ({ st with session := some user.id },
         Response.redirect "get_all_posts" none)
      else
        (st, Response.redirect "login"
          (some "Password incorrect, please try again"))
  else
    (st, Response.rendered "login.html" none)

/-- Handler of /logout (logout in main.py): logout_user clears the
session identity, then redirect to the listing. -/
def logout (st : AppState) : AppState × Response :=
  ({ st with session := none }, Response.redirect "get_all_posts" none)

/-- Handler of /post/post_id (show_post in main.py).  The requested
post is fetched by id (possibly absent).  On a validated comment
submission: an unauthenticated identity is redirected to login with a
notice; otherwise a Comment is inserted whose commenter is the
current user and whose parent_post is the fetched post — none when
the id is absent — and the page is re-rendered with a notice.
Otherwise the page is rendered; no guard turns an absent post into a
404. -/
def show_post (st : AppState) (post_id : Nat) (req : CommentReq) :
    AppState × Response :=
  let requested_post := findPostById st.store post_id
  if req.valid then
    match currentUser st with
    | none =>
      (st, Response.redirect "login"
        (some "You need to log in before posting a comment"))
    | some u =>
      let new_comment : Comment :=
        { id := nextId (st.store.comments.map (fun c => c.id)),
          commenter_id := some u.id,
          parent_post_id := requested_post.map (fun p => p.id),
          text := req.comment_text }
      ({ st with store :=
          { st.store with comments := st.store.comments ++ [new_comment] } },
       Response.rendered "post.html" (some "Comment saved"))
  else
    (st, Response.rendered "post.html" none)

/-- The admin_only decorator of main.py lines 49 to 57 as the
combinator it is: if the current identity has id 1 the wrapped
handler runs, any other id is aborted with 403, and the anonymous
identity raises AttributeError on current_user.id (AnonymousUserMixin
has no id attribute), which Flask renders as a 500.  NOTE: because
app.route is applied before admin_only in main.py, this wrapper is
never registered with the URL map; the routed handlers below are the
unwrapped view functions. -/
def admin_only (handler : AppState → AppState × Response) (st : AppState) :
    AppState × Response :=
  match currentUser st with
  | none => (st, Response.httpError 500)
  | some u =>
    if u.id != 1 then (st, Response.httpError 403)
    else handler st

/-- Handler registered for /new-post (add_new_post in main.py; the
admin_only wrapper is NOT part of the registered handler, see
admin_only).  On a validated submission a BlogPost is built with the
submitted fields, author current_user and date stamped with
strftimeLong, then added and committed.  The commit violates the
store-level unique constraint on title when the title already exists
(IntegrityError, unhandled, 500); an anonymous current_user is not a
mapped User row and also makes the commit raise (500).  On success
redirect to the listing; on GET render the form. -/
def add_new_post (today : Date) (st : AppState) (req : CreatePostReq) :
    AppState × Response :=
  if req.valid then
    if st.store.posts.any (fun p => p.title == req.title) then
      (st, Response.httpError 500)
    else
      match currentUser st with
      | none => (st, Response.httpError 500)
      | some u =>
        let new_post : BlogPost :=
          { id := nextId (st.store.posts.map (fun p => p.id)),
            author_id := some u.id,
            title := req.title,
            subtitle := req.subtitle,
            body := req.body,
            img_url := req.img_url,
            date := strftimeLong today }
        ({ st with store :=
            { st.store with posts := st.store.posts ++ [new_post] } },
         Response.redirect "get_all_posts" none)
  else
    (st, Response.rendered "make-post.html" none)

/-- The five assignments of main.py lines 244 to 248: overwrite the
title, subtitle, img_url, author and body of the fetched row with the
submitted values; no other field is touched. -/
def applyEdit (post : BlogPost) (req : EditPostReq) : BlogPost :=
  { post with
    title := req.title,
    subtitle := req.subtitle,
    img_url := req.img_url,
    author_id := req.author_id,
    body := req.body }

/-- Handler registered for /edit-post/post_id (edit_post in main.py;
the admin_only wrapper is NOT part of the registered handler, see
admin_only).  The post is fetched by id; an absent id raises
AttributeError when the prefill form reads post.title (500).  On a
validated submission the title, subtitle, img_url, author and body of
that row are overwritten with the submitted values and committed,
then redirect to the post detail view; on GET render the prefilled
form. -/
def edit_post (st : AppState) (post_id : Nat) (req : EditPostReq) :
    AppState × Response :=
  match findPostById st.store post_id with
  | none => (st, Response.httpError 500)
  | some post =>
    if req.valid then
      let post1 : BlogPost := applyEdit post req
      ({ st with store :=
          { st.store with posts :=
              st.store.posts.map (fun q => if q.id == post_id then post1 else q) } },
       Response.redirect ("post/" ++ toString post.id) none)
    else
      (st, Response.rendered "make-post.html" none)

/-- Handler registered for /delete/post_id (delete_post in main.py;
the admin_only wrapper is NOT part of the registered handler, see
admin_only).  The post is fetched by id; db.session.delete raises on
an absent id (500); otherwise the row is removed, committed, and the
user is redirected to the listing. -/
def delete_post (st : AppState) (post_id : Nat) : AppState × Response :=
  match findPostById st.store post_id with
  | none => (st, Response.httpError 500)
  | some _ =>
    ({ st with store :=
        { st.store with posts := st.store.posts.filter (fun p => p.id != post_id) } },
     Response.redirect "get_all_posts" none)

/-! Concrete fixtures used by the counterexample and witness theorems. -/

/-- A concrete calendar date standing for date.today(). -/
def dateToday : Date := { year := 2026, month := 10, day := 12 }

/-- The first user ever inserted, id 1: the administrator. -/
def adminUser : User :=
  { id := 1, email := "admin@blog.com", password := "hxroot", username := "admin" }

/-- A second registered user, id 2: not the administrator. -/
def bobUser : User :=
  { id := 2, email := "bob@blog.com", password := "hxbob", username := "bob" }

/-- A concrete stored blog post with id 1. -/
def postP : BlogPost :=
  { id := 1, author_id := some 1, title := "P", subtitle := "s",
    date := "October 01, 2026", body := "b", img_url := "u" }

/-- A concrete password hashing function instantiating hashPw. -/
def hashX (p : String) : String := "hx" ++ p

/-- A concrete hash verifier instantiating verify, matching hashX. -/
def verifyX (h p : String) : Bool := h == ("hx" ++ p)

/-- State for the C1 counterexample: both users exist, no posts, and
the session identity is user 2 (not the administrator). -/
def stateC1 : AppState :=
  { store := { users := [adminUser, bobUser], posts := [], comments := [] },
    session := some 2 }

/-- A validated create-post submission. -/
def reqC1 : CreatePostReq :=
  { valid := true, title := "First Post", subtitle := "sub",
    body := "text", img_url := "img" }

/-- State for the C2 scenario: the administrator is logged in and post
postP exists. -/
def stateC2 : AppState :=
  { store := { users := [adminUser], posts := [postP], comments := [] },
    session := some 1 }

/-- A plain GET of a post page: no validated comment submission. -/
def getReq : CommentReq := { valid := false, comment_text := "" }

/-- State for the C3 counterexample: the administrator is logged in
and the store holds no posts at all. -/
def stateC3 : AppState :=
  { store := { users := [adminUser], posts := [], comments := [] },
    session := some 1 }

/-- A validated comment submission. -/
def commentReq : CommentReq := { valid := true, comment_text := "nice" }

/-- A registration submission reusing the email of adminUser. -/
def reqC4 : RegisterReq :=
  { valid := true, email := "admin@blog.com", username := "dup", password := "p" }

/-- A registered user whose password hash hashX-derives from pw. -/
def aliceUser : User :=
  { id := 7, email := "alice@mail.com", password := "hxpw", username := "alice" }

/-- State for the C5 witness: aliceUser exists, nobody is logged in. -/
def stateC5 : AppState :=
  { store := { users := [aliceUser], posts := [], comments := [] },
    session := none }

/-- A validated login submission with the email and password of
aliceUser. -/
def reqC5 : LoginReq := { valid := true, email := "alice@mail.com", password := "pw" }

/-- State for the C6 witness: postP exists, nobody is logged in. -/
def stateC6 : AppState :=
  { store := { users := [adminUser], posts := [postP], comments := [] },
    session := none }

/-- A validated create-post submission whose title collides with the
title of postP. -/
def reqC7 : CreatePostReq :=
  { valid := true, title := "P", subtitle := "s2", body := "b2", img_url := "u2" }

/-- State for the C8 witness: the administrator is logged in, the
store holds postP. -/
def stateC8 : AppState :=
  { store := { users := [adminUser], posts := [postP], comments := [] },
    session := some 1 }

/-- A validated create-post submission with a fresh title. -/
def reqC8 : CreatePostReq :=
  { valid := true, title := "Second Post", subtitle := "s2",
    body := "b2", img_url := "u2" }

/-- A second stored blog post with id 2, a frame row for C10. -/
def postQ : BlogPost :=
  { id := 2, author_id := some 1, title := "Q", subtitle := "sq",
    date := "October 02, 2026", body := "bq", img_url := "uq" }

/-- State for the C10 witness: two posts, one comment, two users. -/
def stateC10 : AppState :=
  { store :=
      { users := [adminUser, bobUser],
        posts := [postP, postQ],
        comments := [{ id := 1, commenter_id := some 2,
                       parent_post_id := some 1, text := "hi" }] },
    session := some 1 }

/-- A validated edit-post submission. -/
def reqC10 : EditPostReq :=
  { valid := true, title := "P edited", subtitle := "se", img_url := "ue",
    author_id := some 2, body := "be" }

/-! Theorems settling the claims. -/

/-- C1: the claim says every CreatePost, EditPost or DeletePost
request by an identity with id different from 1 gets a 403 and leaves
the store unchanged.  The code violates it: because app.route is
applied before admin_only in main.py, the URL map holds the unwrapped
view functions, so a request by the logged-in user with id 2 runs
add_new_post, inserts the post and answers with a redirect, not a
403. -/
theorem createPost_nonadmin_not_forbidden :
    (add_new_post dateToday stateC1 reqC1).2 = Response.redirect "get_all_posts" none ∧
    (add_new_post dateToday stateC1 reqC1).2 ≠ Response.httpError 403 ∧
    (add_new_post dateToday stateC1 reqC1).1.store.posts ≠ stateC1.store.posts := by
  refine ⟨rfl, ?_, ?_⟩ <;> decide

/-- The admin_only combinator itself would have answered 403 on the
same request, had it been part of the registered handler: evidence
that the decorator order, not the guard logic, is the slip. -/
theorem createPost_wrapped_would_forbid :
    admin_only (fun st => add_new_post dateToday st reqC1) stateC1 =
      (stateC1, Response.httpError 403) := by
  decide

/-- C2: the claim says ShowPost of an absent post id returns
NotFound, in particular after the admin deletes the post.  The code
violates it: show_post never guards the absent row; after delete_post
removes postP, show_post of the same id renders post.html normally
(status 200), not a 404. -/
theorem showPost_after_delete_not_notFound :
    (delete_post stateC2 1).2 = Response.redirect "get_all_posts" none ∧
    findPostById (delete_post stateC2 1).1.store 1 = none ∧
    (show_post (delete_post stateC2 1).1 1 getReq).2 = Response.rendered "post.html" none ∧
    (show_post (delete_post stateC2 1).1 1 getReq).2 ≠ Response.httpError 404 := by
  refine ⟨rfl, rfl, rfl, ?_⟩ ; decide

/-- C3: the claim says every Comment created by the comment branch of
show_post is linked to an existing parent post, for every post id in
the request.  The code violates it: a validated comment submission by
the logged-in admin on the absent post id 7 inserts a Comment whose
parent_post_id is none, because BlogPost.query.get returned None and
the handler stores the comment anyway. -/
theorem comment_on_absent_post_has_no_parent :
    findPostById stateC3.store 7 = none ∧
    (show_post stateC3 7 commentReq).1.store.comments =
      [{ id := 1, commenter_id := some 1, parent_post_id := none, text := "nice" }] ∧
    (show_post stateC3 7 commentReq).2 = Response.rendered "post.html" (some "Comment saved") := by
  exact ⟨rfl, rfl, rfl⟩

/-- C4: a validated registration whose email is already present in
the users table redirects to login with the duplicate notice and
leaves the whole state - in particular the users table - unchanged;
no second row is inserted. -/
theorem register_duplicate_email_unchanged (hashPw : String → String)
    (st : AppState) (req : RegisterReq) (u : User)
    (hv : req.valid = true)
    (hdup : findUserByEmail st.store req.email = some u) :
    register hashPw st req =
      (st, Response.redirect "login"
        (some "You\x27ve already signed up with that email, log in instead!")) := by
  simp [register, hv, hdup]

/-- Witness for register_duplicate_email_unchanged at a concrete
duplicate registration. -/
theorem register_duplicate_email_unchanged_witness :
    register hashX stateC3 reqC4 =
      (stateC3, Response.redirect "login"
        (some "You\x27ve already signed up with that email, log in instead!")) :=
  register_duplicate_email_unchanged hashX stateC3 reqC4 adminUser rfl rfl

/-- C5: on a validated login submission, a session is established
exactly when the submitted email is found and the stored hash
verifies against the submitted password, and then the session
identity is that users id; a found email with a failing password
check redirects back to login with the wrong-password notice and
changes nothing; an unknown email redirects back to login with the
unknown-email notice and changes nothing. -/
theorem login_session_iff (verify : String → String → Bool)
    (st : AppState) (req : LoginReq) (hv : req.valid = true) :
    (∀ u, findUserByEmail st.store req.email = some u →
      (verify u.password req.password = true →
        login verify st req =
          ({ st with session := some u.id }, Response.redirect "get_all_posts" none)) ∧
      (verify u.password req.password = false →
        login verify st req =
          (st, Response.redirect "login" (some "Password incorrect, please try again")))) ∧
    (findUserByEmail st.store req.email = none →
      login verify st req =
        (st, Response.redirect "login" (some "That email does not exist"))) := by
  constructor
  · intro u hu
    constructor <;> intro h <;> simp [login, hv, hu, h]
  · intro hn
    simp [login, hv, hn]

/-- Witness for login_session_iff: aliceUser logs in with the correct
password and the session becomes her id 7. -/
theorem login_session_iff_witness :
    login verifyX stateC5 reqC5 =
      ({ stateC5 with session := some 7 }, Response.redirect "get_all_posts" none) :=
  ((login_session_iff verifyX stateC5 reqC5 rfl).1 aliceUser rfl).1 rfl

/-- C6: a validated comment submission while the effective identity
is anonymous redirects to login with a notice and leaves the whole
state unchanged; no Comment row is created. -/
theorem comment_unauthenticated_redirects (st : AppState) (post_id : Nat)
    (req : CommentReq) (hv : req.valid = true) (hanon : currentUser st = none) :
    show_post st post_id req =
      (st, Response.redirect "login"
        (some "You need to log in before posting a comment")) := by
  simp [show_post, hv, hanon]

/-- Witness for comment_unauthenticated_redirects: an anonymous
visitor submits a comment on the existing post 1. -/
theorem comment_unauthenticated_redirects_witness :
    show_post stateC6 1 commentReq =
      (stateC6, Response.redirect "login"
        (some "You need to log in before posting a comment")) :=
  comment_unauthenticated_redirects stateC6 1 commentReq rfl rfl

/-- C7: a validated create-post submission whose title equals the
title of a stored post makes the commit violate the unique constraint
on blog_posts.title; the request fails (unhandled IntegrityError,
500) and the state - in particular the posts table - is unchanged. -/
theorem createPost_duplicate_title_fails (today : Date) (st : AppState)
    (req : CreatePostReq) (hv : req.valid = true)
    (hdup : st.store.posts.any (fun p => p.title == req.title) = true) :
    add_new_post today st req = (st, Response.httpError 500) := by
  simp [add_new_post, hv, hdup]

/-- Witness for createPost_duplicate_title_fails: the admin submits a
new post whose title P collides with postP. -/
theorem createPost_duplicate_title_fails_witness :
    add_new_post dateToday stateC8 reqC7 = (stateC8, Response.httpError 500) :=
  createPost_duplicate_title_fails dateToday stateC8 reqC7 rfl rfl

/-- C8: a validated create-post submission with a fresh title, made
while the session resolves to user u, appends exactly one row whose
date is the current date rendered by strftimeLong (the percent-B
percent-d comma percent-Y format) and whose author is u, and answers
with a redirect to the listing. -/
theorem createPost_success (today : Date) (st : AppState)
    (req : CreatePostReq) (u : User)
    (hv : req.valid = true)
    (hti : st.store.posts.any (fun p => p.title == req.title) = false)
    (hu : currentUser st = some u) :
    (add_new_post today st req).2 = Response.redirect "get_all_posts" none ∧
    ∃ p : BlogPost,
      (add_new_post today st req).1.store.posts = st.store.posts ++ [p] ∧
      p.date = strftimeLong today ∧
      p.author_id = some u.id ∧
      p.title = req.title := by
  refine ⟨by simp [add_new_post, hv, hti, hu], ?_⟩
  refine ⟨{ id := nextId (st.store.posts.map (fun p => p.id)),
            author_id := some u.id,
            title := req.title,
            subtitle := req.subtitle,
            body := req.body,
            img_url := req.img_url,
            date := strftimeLong today }, ?_, rfl, rfl, rfl⟩
  simp [add_new_post, hv, hti, hu]

/-- Witness for createPost_success: the logged-in admin creates a
post with the fresh title Second Post on dateToday. -/
theorem createPost_success_witness :
    (add_new_post dateToday stateC8 reqC8).2 = Response.redirect "get_all_posts" none ∧
    ∃ p : BlogPost,
      (add_new_post dateToday stateC8 reqC8).1.store.posts = stateC8.store.posts ++ [p] ∧
      p.date = strftimeLong dateToday ∧
      p.author_id = some adminUser.id ∧
      p.title = reqC8.title :=
  createPost_success dateToday stateC8 reqC8 adminUser rfl rfl rfl

/-- The fixed format of main.py line 222 on the concrete dateToday:
full month name, zero-padded two-digit day, comma, year. -/
theorem strftimeLong_dateToday : strftimeLong dateToday = "October 12, 2026" := by
  decide

/-- C9: logout clears the session identity unconditionally and
redirects to the listing; running it on an already sessionless state
leaves the state unchanged, and running it twice equals running it
once. -/
theorem logout_clears_session_idempotent (st : AppState) :
    (logout st).1.session = none ∧
    (logout st).2 = Response.redirect "get_all_posts" none ∧
    logout (logout st).1 = logout st ∧
    (logout { st with session := none }).1 = { st with session := none } :=
  ⟨rfl, rfl, rfl, rfl⟩

/-- C10: a validated edit of the stored post with the requested id
rewrites exactly that row through applyEdit - which keeps its id and
date and overwrites title, subtitle, img_url, author and body with
the submitted values - leaves every other post untouched, leaves the
users and comments tables and the session untouched, and redirects to
the detail view of the post. -/
theorem editPost_frame (st : AppState) (post_id : Nat)
    (req : EditPostReq) (post : BlogPost)
    (hfind : findPostById st.store post_id = some post)
    (hv : req.valid = true) :
    (edit_post st post_id req).1.store.users = st.store.users ∧
    (edit_post st post_id req).1.store.comments = st.store.comments ∧
    (edit_post st post_id req).1.session = st.session ∧
    (edit_post st post_id req).1.store.posts =
      st.store.posts.map (fun q => if q.id == post_id then applyEdit post req else q) ∧
    (applyEdit post req).id = post.id ∧
    (applyEdit post req).date = post.date ∧
    (applyEdit post req).title = req.title ∧
    (applyEdit post req).subtitle = req.subtitle ∧
    (applyEdit post req).img_url = req.img_url ∧
    (applyEdit post req).author_id = req.author_id ∧
    (applyEdit post req).body = req.body ∧
    (edit_post st post_id req).2 =
      Response.redirect ("post/" ++ toString post.id) none := by
  refine ⟨?_, ?_, ?_, ?_, rfl, rfl, rfl, rfl, rfl, rfl, rfl, ?_⟩ <;>
    simp [edit_post, hfind, hv]

/-- Witness for editPost_frame: the admin edits post 1 of stateC10;
post 2 and the comment and user tables stay as they were. -/
theorem editPost_frame_witness :
    (edit_post stateC10 1 reqC10).1.store.users = stateC10.store.users ∧
    (edit_post stateC10 1 reqC10).1.store.comments = stateC10.store.comments ∧
    (edit_post stateC10 1 reqC10).1.session = stateC10.session ∧
    (edit_post stateC10 1 reqC10).1.store.posts =
      stateC10.store.posts.map (fun q => if q.id == 1 then applyEdit postP reqC10 else q) ∧
    (applyEdit postP reqC10).id = postP.id ∧
    (applyEdit postP reqC10).date = postP.date ∧
    (applyEdit postP reqC10).title = reqC10.title ∧
    (applyEdit postP reqC10).subtitle = reqC10.subtitle ∧
    (applyEdit postP reqC10).img_url = reqC10.img_url ∧
    (applyEdit postP reqC10).author_id = reqC10.author_id ∧
    (applyEdit postP reqC10).body = reqC10.body ∧
    (edit_post stateC10 1 reqC10).2 =
      Response.redirect ("post/" ++ toString postP.id) none :=
  editPost_frame stateC10 1 reqC10 postP rfl rfl
